import Mathlib

/-!
A shallow embedding of the quickchart HTTP pipeline (src/index.js and
src/lib/qr.js): parameter normalization, the rate limiter wiring, the
dispatch / error pipeline for the chart and QR endpoints, and the
graceful-shutdown handler.  Query/body parameters are modelled as
association lists of strings (absent keys are `none` on lookup),
JavaScript number parsing and truthiness are made explicit, and the
external renderer adapters (chart renderer, QR renderer, PDF
conversion, text2png) are taken as opaque function parameters or
abstract constructors, matching the spec's black-box treatment.
-/

namespace Quickchart

/-- JavaScript truthiness of an optional string value: `undefined` and
the empty string are falsy, every other string is truthy. -/
def jsTruthy : Option String → Bool
  | none => false
  | some s => !s.isEmpty

/-- JavaScript `a || b` on two optional strings: the first truthy value
wins, otherwise the second operand is returned as-is. -/
def jsOrS (a b : Option String) : Option String :=
  if jsTruthy a then a else b

/-- JavaScript `a || d` where `d` is a string default: returns the value
of `a` when truthy, else `d`. -/
def jsOrD (a : Option String) (d : String) : String :=
  if jsTruthy a then a.getD d else d

/-- The digit prefix of a character list. -/
def leadingDigits (cs : List Char) : List Char :=
  cs.takeWhile Char.isDigit

/-- Numeric value of a digit list (most significant first). -/
def digitsVal (ds : List Char) : Nat :=
  ds.foldl (fun a c => a * 10 + (c.toNat - 48)) 0

/-- JavaScript `parseInt(s, 10)`: skip leading whitespace, read an
optional sign and then a decimal digit prefix; `none` models `NaN`
(no digits).  Trailing garbage after the digits is ignored. -/
def parseIntJS (s : String) : Option Int :=
  let cs := s.toList.dropWhile (fun c => c = ' ' ∨ c = '\t' ∨ c = '\n' ∨ c = '\r')
  match cs with
  | '-' :: r =>
    let ds := leadingDigits r
    if ds.isEmpty then none else some (-(Int.ofNat (digitsVal ds)))
  | '+' :: r =>
    let ds := leadingDigits r
    if ds.isEmpty then none else some (Int.ofNat (digitsVal ds))
  | r =>
    let ds := leadingDigits r
    if ds.isEmpty then none else some (Int.ofNat (digitsVal ds))

/-- `parseInt` applied to a possibly-absent parameter: `parseInt(undefined)`
is `NaN`, modelled as `none`. -/
def parseIntOpt (v : Option String) : Option Int :=
  v.bind parseIntJS

/-- Parameter maps (query string or urlencoded/JSON body): an
association list from key to string value; a missing key reads as
`undefined` (`none`). -/
def Params := List (String × String)

/-- Property lookup `p.k` on a parameter map. -/
def pget (p : Params) (k : String) : Option String :=
  (List.find? (fun kv => kv.1 = k) p).map (fun kv => kv.2)

/-- Response bodies, by provenance: `pngErr` is the buffer produced by
`text2png` (the `failPng` path), `pdfErr` the one-page PDF produced by
`getPdfBufferWithText` (the `failPdf` path), `buf` raw renderer bytes,
and `text` a plain-text body (the rate limiter's message). -/
inductive RespBody where
  | pngErr (msg : String)
  | pdfErr (msg : String)
  | buf (b : List Nat)
  | text (msg : String)
deriving DecidableEq, Repr

/-- An HTTP response as written by the handlers: status, content type,
the optional cache and length headers, and the body. -/
structure Response where
  status : Nat
  contentType : String
  cacheControl : Option String := none
  contentLength : Option Nat := none
  body : RespBody
deriving DecidableEq, Repr

/-- src/index.js `failPng`: HTTP 500, `image/png`, body generated by
`text2png` from the message prefixed with `Chart Error: `. -/
def failPng (msg : String) : Response :=
  { status := 500, contentType := "image/png",
    body := RespBody.pngErr ("Chart Error: " ++ msg) }

/-- src/index.js `failPdf`: HTTP 500, `application/pdf`, body a
generated one-page PDF carrying the message. -/
def failPdf (msg : String) : Response :=
  { status := 500, contentType := "application/pdf",
    body := RespBody.pdfErr msg }

/-- The one-week cache header value used by every success path. -/
def cacheWeek : String := "public, max-age=604800"

/-! ## QR request normalization (src/index.js, GET /qr handler) -/

/-- The raw QR query parameters, as read off `req.query`. -/
structure QrQuery where
  text : Option String := none
  format : Option String := none
  mode : Option String := none
  margin : Option String := none
  ecLevel : Option String := none
  size : Option String := none
  dark : Option String := none
  light : Option String := none
deriving DecidableEq, Repr

/-- Read a `QrQuery` off a raw parameter map. -/
def qrQueryOf (q : Params) : QrQuery :=
  { text := pget q "text", format := pget q "format", mode := pget q "mode",
    margin := pget q "margin", ecLevel := pget q "ecLevel",
    size := pget q "size", dark := pget q "dark", light := pget q "light" }

/-- `parseInt(req.query.margin, 10) || 4`: the parsed value when it is a
number other than `0` (`0` and `NaN` are falsy), else the default 4. -/
def qrMargin (m : Option String) : Int :=
  match parseIntOpt m with
  | none => 4
  | some n => if n = 0 then 4 else n

/-- `Math.min(3000, parseInt(req.query.size, 10)) || 150`: the parse is
clamped to at most 3000 first; `NaN` propagates through `Math.min`, and
`NaN` or `0` then falls back to 150. -/
def qrSize (s : Option String) : Int :=
  match parseIntOpt s with
  | none => 150
  | some n => if min 3000 n = 0 then 150 else min 3000 n

/-- The validated QR spec handed to the QR renderer: decoded text with
the options object built at src/index.js lines 221-229. -/
structure QrSpec where
  format : String
  mode : Option String
  qrData : String
  margin : Int
  width : Int
  errorCorrectionLevel : Option String
  darkColor : String
  lightColor : String
deriving DecidableEq, Repr

inductive QrError where
  | missingText
  | malformedUri
deriving DecidableEq, Repr

/-- The parameter-extraction part of the GET /qr handler
(src/index.js lines 194-229): `text` is mandatory and percent-decoded
(`decode` models `decodeURIComponent`, `none` standing for a thrown
`URIError`); `format` is `svg` only on the literal value `svg`;
margin/size fall back as in `qrMargin`/`qrSize`; colors default to
`000`/`fff`. -/
def normalizeQr (decode : String → Option String) (q : QrQuery) :
    Except QrError QrSpec :=
  if !jsTruthy q.text then Except.error QrError.missingText
  else
    match decode (q.text.getD "") with
    | none => Except.error QrError.malformedUri
    | some qrData =>
      Except.ok
        { format := if q.format = some "svg" then "svg" else "png",
          mode := q.mode, qrData := qrData,
          margin := qrMargin q.margin, width := qrSize q.size,
          errorCorrectionLevel :=
            if jsTruthy q.ecLevel then q.ecLevel else none,
          darkColor := jsOrD q.dark "000",
          lightColor := jsOrD q.light "fff" }

/-- The full GET /qr handler (src/index.js lines 194-245): normalize,
invoke the QR renderer adapter, and write either the success response
(200, `image/` ++ format, one-week cache, exact length) or the
`failPng` artifact. -/
def qrHandler (decode : String → Option String)
    (render : QrSpec → Except String (List Nat)) (q : QrQuery) : Response :=
  match normalizeQr decode q with
  | Except.error QrError.missingText => failPng "You are missing variable `text`"
  | Except.error QrError.malformedUri => failPng "URI malformed"
  | Except.ok spec =>
    match render spec with
    | Except.ok b =>
      { status := 200, contentType := "image/" ++ spec.format,
        contentLength := some b.length,
        cacheControl := some cacheWeek, body := RespBody.buf b }
    | Except.error e => failPng e

/-! ## QR renderer payload preparation (src/lib/qr.js, `renderQr`) -/

/-- The opaque SJIS byte-mapping helper `qrcode/helper/to-sjis`. -/
inductive SjisHelper where
  | toSJIS
deriving DecidableEq, Repr

/-- One entry of a segmented QR payload (`{ data, mode }`). -/
structure QrSegment where
  data : String
  mode : String
deriving DecidableEq, Repr

/-- The payload handed to the qrcode library: either the raw text or a
list of explicit segments. -/
inductive QrPayload where
  | raw (s : String)
  | segs (l : List QrSegment)
deriving DecidableEq, Repr

/-- The options object handed to the qrcode library; `toSJISFunc` is
absent unless `renderQr` installs it. -/
structure QrOpts where
  margin : Int
  width : Int
  errorCorrectionLevel : Option String
  darkColor : String
  lightColor : String
  toSJISFunc : Option SjisHelper := none
deriving DecidableEq, Repr

/-- The options object built by the /qr handler (src/index.js lines
221-229); it never sets `toSJISFunc`. -/
def qrOptsOf (spec : QrSpec) : QrOpts :=
  { margin := spec.margin, width := spec.width,
    errorCorrectionLevel := spec.errorCorrectionLevel,
    darkColor := spec.darkColor, lightColor := spec.lightColor }

/-- The data/option preparation of `renderQr` (src/lib/qr.js lines
6-19): when `mode === 'sjis'` the text becomes a single kanji-mode
segment and `toSJISFunc` is installed; otherwise both pass through
unchanged. -/
def prepareQr (mode : Option String) (qrData : String) (qrOpts : QrOpts) :
    QrPayload × QrOpts :=
  if mode = some "sjis" then
    (QrPayload.segs [{ data := qrData, mode := "kanji" }],
     { qrOpts with toSJISFunc := some SjisHelper.toSJIS })
  else
    (QrPayload.raw qrData, qrOpts)

/-! ## Chart dispatch pipeline (src/index.js, `doRender` and friends) -/

/-- The requested chart output format, from
`(req.query.f || req.query.format || '').toLowerCase()`. -/
inductive ChartFmt where
  | png
  | pdf
deriving DecidableEq, Repr

/-- The `opts` object built by the /chart handlers. -/
structure ChartOpts where
  chart : Option String
  height : Option String
  width : Option String
  backgroundColor : Option String
deriving DecidableEq, Repr

/-- `opts` extraction shared by GET (from the query) and POST (from the
body): first truthy of `c`/`chart`, `h`/`height`, `w`/`width`,
`backgroundColor`/`bkg`. -/
def chartOptsOf (p : Params) : ChartOpts :=
  { chart := jsOrS (pget p "c") (pget p "chart"),
    height := jsOrS (pget p "h") (pget p "height"),
    width := jsOrS (pget p "w") (pget p "width"),
    backgroundColor := jsOrS (pget p "backgroundColor") (pget p "bkg") }

/-- ASCII lowercasing of one character, as JavaScript `toLowerCase`
acts on the format strings at hand. -/
def asciiLower (c : Char) : Char :=
  if 'A' ≤ c ∧ c ≤ 'Z' then Char.ofNat (c.toNat + 32) else c

/-- JavaScript `s.toLowerCase()` (ASCII range). -/
def lowerStr (s : String) : String :=
  String.mk (s.data.map asciiLower)

/-- The output-format string of a chart request. -/
def outputFormat (p : Params) : String :=
  lowerStr (jsOrD (jsOrS (pget p "f") (pget p "format")) "")

/-- Branch taken by the /chart handlers: `doRenderPdf` exactly when the
lowercased format string is `pdf`. -/
def chartFmtOf (p : Params) : ChartFmt :=
  if outputFormat p = "pdf" then ChartFmt.pdf else ChartFmt.png

/-- Dimension handling in `doRender` (src/index.js lines 127-140): keep
the default unless the raw value is truthy and parses. -/
def dimOf (dflt : Int) (v : Option String) : Int :=
  if jsTruthy v then
    match parseIntOpt v with
    | some n => n
    | none => dflt
  else dflt

/-- `doRender` plus the format-specific handlers `doRenderChart` /
`doRenderPdf` (src/index.js lines 89-159).  `render` is the external
chart renderer adapter `renderChart(width, height, backgroundColor,
untrustedInput)`, `pdfFromPng` the external `getPdfBufferFromPng`; both
are black boxes.  The failure function is `failPng` for PNG requests
and `failPdf` for PDF requests. -/
def doRender (render : Int → Int → String → String → Except String (List Nat))
    (pdfFromPng : List Nat → List Nat)
    (fmt : ChartFmt) (opts : ChartOpts) : Response :=
  let fail := fun msg =>
    match fmt with
    | ChartFmt.png => failPng msg
    | ChartFmt.pdf => failPdf msg
  if !jsTruthy opts.chart then fail "You are missing variable `c` or `chart`"
  else
    let height := dimOf 300 opts.height
    let width := dimOf 500 opts.width
    let backgroundColor := jsOrD opts.backgroundColor "transparent"
    match render width height backgroundColor (opts.chart.getD "") with
    | Except.error e => fail e
    | Except.ok b =>
      match fmt with
      | ChartFmt.png =>
        { status := 200, contentType := "image/png",
          contentLength := some b.length,
          cacheControl := some cacheWeek, body := RespBody.buf b }
      | ChartFmt.pdf =>
        let pdfBuf := pdfFromPng b
        { status := 200, contentType := "application/pdf",
          contentLength := some pdfBuf.length,
          cacheControl := some cacheWeek, body := RespBody.buf pdfBuf }

/-! ## Rate limiter wiring (src/index.js lines 33-54) -/

/-- The limiter's `skip` predicate (src/index.js lines 45-51): bypass
exactly when `req.query.key` is truthy and the key store contains it.
Only the query string is consulted, never the body. -/
def limiterSkip (apiKeys : List String) (query : Params) : Bool :=
  if jsTruthy (pget query "key") then
    apiKeys.contains ((pget query "key").getD "")
  else false

inductive LimitResult where
  | allow
  | reject
deriving DecidableEq, Repr

/-- Modelled from the spec: the counting step of the express-rate-limit
middleware (the library itself is not part of this repository).  Spec
4.1: a skipped request is allowed without consuming quota; otherwise the
window count is incremented and the request is rejected exactly when the
post-increment count exceeds the limit.  `count` is the caller's current
window count; window expiry is not modelled since no claim spans
windows. -/
def limiterCheck (limitMax : Nat) (apiKeys : List String) (query : Params)
    (count : Nat) : LimitResult × Nat :=
  if limiterSkip apiKeys query then (LimitResult.allow, count)
  else if count + 1 > limitMax then (LimitResult.reject, count + 1)
  else (LimitResult.allow, count + 1)

/-- The rate-limit message configured at src/index.js lines 40-41. -/
def limitMessage : String :=
  "Please slow down your requests! This is a shared public endpoint. Email contact@quickchart.io for rate limit exceptions or to purchase a commercial license."

/-- Modelled from the spec: the limiter's own rejection response
(spec 4.3 delegates to the middleware's standard 429-style policy with
the configured message). -/
def rateLimitResponse : Response :=
  { status := 429, contentType := "text/html",
    body := RespBody.text limitMessage }

/-! ## Application routing (src/index.js) -/

inductive Method where
  | get
  | post
deriving DecidableEq, Repr

/-- An incoming HTTP request as the handlers see it. -/
structure Req where
  method : Method
  path : String
  query : Params
  body : Params

/-- Environment-derived configuration: the raw `RATE_LIMIT_PER_MIN`
variable (`none` when unset). -/
structure AppConfig where
  rateLimitPerMin : Option String := none

/-- The limiter is installed only when `RATE_LIMIT_PER_MIN` is truthy
(src/index.js line 33). -/
def rateLimitEnabled (cfg : AppConfig) : Bool :=
  jsTruthy cfg.rateLimitPerMin

/-- `parseInt(process.env.RATE_LIMIT_PER_MIN, 10)` (src/index.js
line 34), as a window maximum. -/
def limitMaxOf (cfg : AppConfig) : Nat :=
  match parseIntOpt cfg.rateLimitPerMin with
  | some n => n.toNat
  | none => 0

/-- The /chart route body (src/index.js lines 161-192): GET reads the
parameters from the query string, POST from the body; both then run the
shared dispatch pipeline. -/
def chartParams (req : Req) : Params :=
  match req.method with
  | Method.get => req.query
  | Method.post => req.body

def chartRoute (render : Int → Int → String → String → Except String (List Nat))
    (pdfFromPng : List Nat → List Nat) (req : Req) : Response :=
  doRender render pdfFromPng (chartFmtOf (chartParams req))
    (chartOptsOf (chartParams req))

/-- The framework's fallthrough response for unrouted requests. -/
def notFoundResponse : Response :=
  { status := 404, contentType := "text/html", body := RespBody.text "Cannot find route" }

/-- One request through the application (src/index.js): the limiter
middleware is mounted on the `/chart` path only (line 53) and only when
configured (line 33); GET /qr runs the QR handler; the limiter window
count is the only cross-request state and is threaded explicitly. -/
def appStep (cfg : AppConfig) (apiKeys : List String)
    (decode : String → Option String)
    (renderQrF : QrSpec → Except String (List Nat))
    (renderChartF : Int → Int → String → String → Except String (List Nat))
    (pdfFromPng : List Nat → List Nat)
    (req : Req) (count : Nat) : Response × Nat :=
  if req.path = "/chart" then
    if rateLimitEnabled cfg then
      match limiterCheck (limitMaxOf cfg) apiKeys req.query count with
      | (LimitResult.reject, c) => (rateLimitResponse, c)
      | (LimitResult.allow, c) => (chartRoute renderChartF pdfFromPng req, c)
    else (chartRoute renderChartF pdfFromPng req, count)
  else if req.path = "/qr" ∧ req.method = Method.get then
    (qrHandler decode renderQrF (qrQueryOf req.query), count)
  else (notFoundResponse, count)

/-! ## Lifecycle manager (src/index.js lines 252-271) -/

/-- Signal handlers are installed only outside development mode
(src/index.js line 252). -/
def signalHandlersInstalled (isDev : Bool) : Bool :=
  !isDev

/-- The listening socket's state. -/
structure ServerState where
  accepting : Bool
deriving DecidableEq, Repr

/-- Modelled from the spec: the effect of Node's `server.close()` (an
external API), which stops the listener accepting new connections while
letting in-flight connections finish; called first thing by
`gracefulShutdown`. -/
def serverClose (s : ServerState) : ServerState :=
  { s with accepting := false }

/-- The grace period scheduled by `gracefulShutdown`
(src/index.js line 263): `10 * 1000` milliseconds. -/
def gracePeriodMs : Nat := 10 * 1000

/-- Time (ms after the signal) at which the last in-flight connection
finishes, i.e. when `server.close`'s callback fires. -/
def drainDoneTime (finishTimes : List Nat) : Nat :=
  finishTimes.foldr max 0

/-- Modelled from the spec: the process exits at the first `process.exit()`
call — either the drain callback (all connections finished) or the
forced-exit timer at `gracePeriodMs`, whichever fires first. -/
def processExitTime (finishTimes : List Nat) : Nat :=
  min (drainDoneTime finishTimes) gracePeriodMs

/-! ## Helper lemmas -/

/-- Inversion for a successful QR normalization: the decode succeeded
and the spec is exactly the record built by the handler. -/
theorem normalizeQr_ok {decode : String → Option String} {q : QrQuery}
    {spec : QrSpec} (hn : normalizeQr decode q = Except.ok spec) :
    ∃ d, decode (q.text.getD "") = some d ∧
      spec =
        { format := if q.format = some "svg" then "svg" else "png",
          mode := q.mode, qrData := d,
          margin := qrMargin q.margin, width := qrSize q.size,
          errorCorrectionLevel :=
            if jsTruthy q.ecLevel then q.ecLevel else none,
          darkColor := jsOrD q.dark "000",
          lightColor := jsOrD q.light "fff" } := by
  unfold normalizeQr at hn
  split at hn
  · exact absurd hn (by simp)
  · split at hn
    · exact absurd hn (by simp)
    · rename_i d hd
      injection hn with h
      exact ⟨d, hd, h.symm⟩

/-- The QR handler only ever answers 200 or 500. -/
theorem qrHandler_status (decode : String → Option String)
    (render : QrSpec → Except String (List Nat)) (q : QrQuery) :
    (qrHandler decode render q).status = 200 ∨
    (qrHandler decode render q).status = 500 := by
  unfold qrHandler
  split
  · right; rfl
  · right; rfl
  · split
    · left; rfl
    · right; rfl

/-- A truthy query `key` that the key store contains makes the limiter
skip the request. -/
theorem limiterSkip_of_key {apiKeys : List String} {q : Params} {k : String}
    (hkey : pget q "key" = some k) (hk : k ≠ "")
    (hmem : apiKeys.contains k = true) :
    limiterSkip apiKeys q = true := by
  unfold limiterSkip
  rw [hkey]
  have ht : jsTruthy (some k) = true := by
    show (!(String.isEmpty k)) = true
    cases he : String.isEmpty k
    · rfl
    · exact absurd ((String.isEmpty_iff k).mp he) hk
  rw [ht, if_pos rfl]
  simpa using hmem

/-- With no `key` in the query string the limiter never skips. -/
theorem limiterSkip_of_no_key {apiKeys : List String} {q : Params}
    (hkey : pget q "key" = none) :
    limiterSkip apiKeys q = false := by
  unfold limiterSkip
  rw [hkey]
  simp [jsTruthy]

/-- Every member of a list is bounded by its `foldr max 0`. -/
theorem mem_le_foldr_max {d : Nat} {l : List Nat} (h : d ∈ l) :
    d ≤ l.foldr max 0 := by
  induction l with
  | nil => cases h
  | cons a t ih =>
    cases h with
    | head => exact le_max_left _ _
    | tail _ ht => exact le_trans (ih ht) (le_max_right _ _)

/-! ## Claim theorems -/

/-- Concrete QR query with only `text` and `size` supplied. -/
def qSizeQuery (s : String) : QrQuery :=
  { text := some "hello", size := some s }

/-- Concrete QR query with only `text` and `margin` supplied. -/
def qMarginQuery (s : String) : QrQuery :=
  { text := some "hello", margin := some s }

/-- The width field of a normalization result, when it succeeded. -/
def okWidth (r : Except QrError QrSpec) : Option Int :=
  match r with
  | Except.ok s => some s.width
  | Except.error _ => none

/-- The margin field of a normalization result, when it succeeded. -/
def okMargin (r : Except QrError QrSpec) : Option Int :=
  match r with
  | Except.ok s => some s.margin
  | Except.error _ => none

/-- Claim C1 (counterexample): with `size=5000` the normalized QrSpec
size is 3000, not the claimed 150 — `Math.min(3000, 5000) = 3000` is
truthy, so the `|| 150` default is not taken. -/
theorem c1_size5000_counterexample :
    okWidth (normalizeQr Option.some (qSizeQuery "5000")) = some 3000 ∧
    ¬ okWidth (normalizeQr Option.some (qSizeQuery "5000")) = some 150 := by
  decide

/-- Claim C1 (amended): `size=5000`, `size=3000` and `size=3001` all
normalize to size 3000 (values above 3000 are clamped to 3000, not
defaulted); the 150 default applies when `size` is unparsable or when
the clamped value is zero. -/
theorem c1_size_clamped :
    okWidth (normalizeQr Option.some (qSizeQuery "5000")) = some 3000 ∧
    okWidth (normalizeQr Option.some (qSizeQuery "3000")) = some 3000 ∧
    okWidth (normalizeQr Option.some (qSizeQuery "3001")) = some 3000 ∧
    qrSize (some "abc") = 150 ∧ qrSize none = 150 ∧ qrSize (some "0") = 150 := by
  decide

/-- Claim C2: a /chart request whose query string carries a key present
in the privileged key set is allowed by the limiter regardless of the
current window count, and the window count is not incremented. -/
theorem c2_privileged_key_bypass (cfg : AppConfig) (apiKeys : List String)
    (decode : String → Option String)
    (renderQrF : QrSpec → Except String (List Nat))
    (renderChartF : Int → Int → String → String → Except String (List Nat))
    (pdfFromPng : List Nat → List Nat) (req : Req) (count : Nat) (k : String)
    (hpath : req.path = "/chart")
    (hkey : pget req.query "key" = some k) (hk : k ≠ "")
    (hmem : apiKeys.contains k = true) :
    limiterCheck (limitMaxOf cfg) apiKeys req.query count =
      (LimitResult.allow, count) ∧
    (appStep cfg apiKeys decode renderQrF renderChartF pdfFromPng
      req count).2 = count := by
  have hskip := limiterSkip_of_key hkey hk hmem
  have hcheck : limiterCheck (limitMaxOf cfg) apiKeys req.query count =
      (LimitResult.allow, count) := by
    unfold limiterCheck
    rw [hskip, if_pos rfl]
  refine ⟨hcheck, ?_⟩
  unfold appStep
  rw [hpath, if_pos rfl]
  cases he : rateLimitEnabled cfg
  · rfl
  · rw [if_pos rfl, hcheck]

/-- Concrete privileged-key chart request used for the C2 witness. -/
def reqKeyed : Req :=
  { method := Method.get, path := "/chart",
    query := [("key", "sek"), ("c", "x")], body := [] }

/-- A configuration with a 60-per-minute limit. -/
def cfgLimited : AppConfig := { rateLimitPerMin := some "60" }

/-- A QR renderer stub that always succeeds. -/
def rendQrOk : QrSpec → Except String (List Nat) := fun _ => Except.ok [0]

/-- A chart renderer stub that always succeeds. -/
def rendChartOk : Int → Int → String → String → Except String (List Nat) :=
  fun _ _ _ _ => Except.ok [0]

/-- A chart renderer stub that always fails with `boom`. -/
def rendChartFail : Int → Int → String → String → Except String (List Nat) :=
  fun _ _ _ _ => Except.error "boom"

/-- A PDF conversion stub. -/
def pdfId : List Nat → List Nat := fun b => b

theorem c2_privileged_key_bypass_witness :
    reqKeyed.path = "/chart" ∧ pget reqKeyed.query "key" = some "sek" ∧
    "sek" ≠ "" ∧ List.contains ["sek"] "sek" = true ∧
    (limiterCheck (limitMaxOf cfgLimited) ["sek"] reqKeyed.query 999 =
      (LimitResult.allow, 999) ∧
     (appStep cfgLimited ["sek"] Option.some rendQrOk rendChartOk pdfId
       reqKeyed 999).2 = 999) :=
  ⟨rfl, rfl, by decide, by decide,
    c2_privileged_key_bypass cfgLimited ["sek"] Option.some rendQrOk
      rendChartOk pdfId reqKeyed 999 "sek" rfl rfl (by decide) (by decide)⟩

/-- Claim C3: the limiter is mounted on /chart only — a /qr request
never changes the limiter window count and is never answered with the
limiter's 429 rejection, even when the rate limit is configured. -/
theorem c3_qr_not_rate_limited (cfg : AppConfig) (apiKeys : List String)
    (decode : String → Option String)
    (renderQrF : QrSpec → Except String (List Nat))
    (renderChartF : Int → Int → String → String → Except String (List Nat))
    (pdfFromPng : List Nat → List Nat) (req : Req) (count : Nat)
    (hpath : req.path = "/qr") :
    (appStep cfg apiKeys decode renderQrF renderChartF pdfFromPng
      req count).2 = count ∧
    (appStep cfg apiKeys decode renderQrF renderChartF pdfFromPng
      req count).1.status ≠ 429 := by
  unfold appStep
  rw [hpath, if_neg (by decide)]
  by_cases hm : req.method = Method.get
  · rw [if_pos ⟨rfl, hm⟩]
    refine ⟨rfl, ?_⟩
    rcases qrHandler_status decode renderQrF (qrQueryOf req.query) with h | h <;>
      simp [h]
  · rw [if_neg (fun hc => hm hc.2)]
    refine ⟨rfl, ?_⟩
    show notFoundResponse.status ≠ 429
    decide

/-- Concrete /qr request used for the C3 witness. -/
def reqQr : Req :=
  { method := Method.get, path := "/qr",
    query := [("text", "hi")], body := [] }

theorem c3_qr_not_rate_limited_witness :
    reqQr.path = "/qr" ∧
    ((appStep cfgLimited ["sek"] Option.some rendQrOk rendChartOk pdfId
       reqQr 7).2 = 7 ∧
     (appStep cfgLimited ["sek"] Option.some rendQrOk rendChartOk pdfId
       reqQr 7).1.status ≠ 429) :=
  ⟨rfl, c3_qr_not_rate_limited cfgLimited ["sek"] Option.some rendQrOk
    rendChartOk pdfId reqQr 7 rfl⟩

/-- Claim C4: when a chart request asks for pdf output and the chart
renderer adapter fails, the response is the `failPdf` artifact: HTTP
500 with content type `application/pdf`, never `image/png`. -/
theorem c4_pdf_failure_is_pdf
    (renderChartF : Int → Int → String → String → Except String (List Nat))
    (pdfFromPng : List Nat → List Nat) (req : Req) (e : String)
    (hfmt : chartFmtOf (chartParams req) = ChartFmt.pdf)
    (hchart : jsTruthy (chartOptsOf (chartParams req)).chart = true)
    (hfail : ∀ w h bg c, renderChartF w h bg c = Except.error e) :
    chartRoute renderChartF pdfFromPng req = failPdf e ∧
    (chartRoute renderChartF pdfFromPng req).status = 500 ∧
    (chartRoute renderChartF pdfFromPng req).contentType = "application/pdf" ∧
    (chartRoute renderChartF pdfFromPng req).contentType ≠ "image/png" := by
  have hmain : chartRoute renderChartF pdfFromPng req = failPdf e := by
    unfold chartRoute doRender
    rw [hfmt, hchart]
    simp only [Bool.not_true, Bool.false_eq_true, if_false, hfail]
  refine ⟨hmain, ?_, ?_, ?_⟩
  · rw [hmain]; rfl
  · rw [hmain]; rfl
  · rw [hmain]
    show ("application/pdf" : String) ≠ "image/png"
    decide

/-- Concrete pdf-format chart request used for the C4 witness. -/
def reqPdfChart : Req :=
  { method := Method.get, path := "/chart",
    query := [("c", "x"), ("f", "pdf")], body := [] }

theorem c4_pdf_failure_is_pdf_witness :
    chartFmtOf (chartParams reqPdfChart) = ChartFmt.pdf ∧
    jsTruthy (chartOptsOf (chartParams reqPdfChart)).chart = true ∧
    (chartRoute rendChartFail pdfId reqPdfChart = failPdf "boom" ∧
     (chartRoute rendChartFail pdfId reqPdfChart).status = 500 ∧
     (chartRoute rendChartFail pdfId reqPdfChart).contentType =
       "application/pdf" ∧
     (chartRoute rendChartFail pdfId reqPdfChart).contentType ≠ "image/png") :=
  ⟨by decide, by decide,
    c4_pdf_failure_is_pdf rendChartFail pdfId reqPdfChart "boom" (by decide)
      (by decide) (fun _ _ _ _ => rfl)⟩

/-- Claim C5: a /qr request without a `text` parameter is answered by
`failPng`: HTTP 500, content type `image/png`, and a body generated by
`text2png` from the error text — not a plain-text or JSON body. -/
theorem c5_missing_text_png_error (decode : String → Option String)
    (render : QrSpec → Except String (List Nat)) (q : QrQuery)
    (hq : q.text = none) :
    qrHandler decode render q = failPng "You are missing variable `text`" ∧
    (qrHandler decode render q).status = 500 ∧
    (qrHandler decode render q).contentType = "image/png" ∧
    (qrHandler decode render q).body =
      RespBody.pngErr "Chart Error: You are missing variable `text`" := by
  have hmain : qrHandler decode render q =
      failPng "You are missing variable `text`" := by
    unfold qrHandler normalizeQr
    rw [hq]
    rfl
  refine ⟨hmain, ?_, ?_, ?_⟩ <;> rw [hmain] <;> rfl

/-- The empty QR query (no parameters at all). -/
def qEmpty : QrQuery := {}

theorem c5_missing_text_png_error_witness :
    qEmpty.text = none ∧
    (qrHandler Option.some rendQrOk qEmpty =
       failPng "You are missing variable `text`" ∧
     (qrHandler Option.some rendQrOk qEmpty).status = 500 ∧
     (qrHandler Option.some rendQrOk qEmpty).contentType = "image/png" ∧
     (qrHandler Option.some rendQrOk qEmpty).body =
       RespBody.pngErr "Chart Error: You are missing variable `text`") :=
  ⟨rfl, c5_missing_text_png_error Option.some rendQrOk qEmpty rfl⟩

/-- Concrete svg-format QR query. -/
def qSvg : QrQuery := { text := some "hi", format := some "svg" }

/-- Claim C6 (counterexample): a successful `format=svg` /qr request is
written with content type `image/svg` — the handler interpolates the
format into `image/` verbatim — not `image/svg+xml` as claimed. -/
theorem c6_svg_mime_counterexample :
    (qrHandler Option.some (fun _ => Except.ok [0, 1, 2]) qSvg).status = 200 ∧
    (qrHandler Option.some (fun _ => Except.ok [0, 1, 2]) qSvg).contentType =
      "image/svg" ∧
    (qrHandler Option.some (fun _ => Except.ok [0, 1, 2]) qSvg).contentType ≠
      "image/svg+xml" := by
  decide

/-- The spec that `qSvg` normalizes to. -/
def qSvgSpec : QrSpec :=
  { format := "svg", mode := none, qrData := "hi", margin := 4, width := 150,
    errorCorrectionLevel := none, darkColor := "000", lightColor := "fff" }

/-- Claim C6 (amended): every successful `format=svg` /qr request is
written with status 200, content type `image/svg` (not `image/svg+xml`),
`Cache-Control: public, max-age=604800`, and a Content-Length equal to
the exact byte length of the returned buffer. -/
theorem c6_svg_success_headers (decode : String → Option String)
    (render : QrSpec → Except String (List Nat)) (q : QrQuery)
    (spec : QrSpec) (b : List Nat)
    (hn : normalizeQr decode q = Except.ok spec)
    (hf : q.format = some "svg")
    (hr : render spec = Except.ok b) :
    qrHandler decode render q =
      { status := 200, contentType := "image/svg",
        contentLength := some b.length,
        cacheControl := some cacheWeek, body := RespBody.buf b } := by
  obtain ⟨d, hd, hspec⟩ := normalizeQr_ok hn
  have hfmt : spec.format = "svg" := by
    rw [hspec]
    simp [hf]
  unfold qrHandler
  rw [hn]
  dsimp only
  rw [hr]
  dsimp only
  rw [hfmt]
  rfl

theorem c6_svg_success_headers_witness :
    normalizeQr Option.some qSvg = Except.ok qSvgSpec ∧
    qSvg.format = some "svg" ∧
    rendQrOk qSvgSpec = Except.ok [0] ∧
    qrHandler Option.some rendQrOk qSvg =
      { status := 200, contentType := "image/svg", contentLength := some 1,
        cacheControl := some cacheWeek, body := RespBody.buf [0] } :=
  ⟨rfl, rfl, rfl,
    c6_svg_success_headers Option.some rendQrOk qSvg qSvgSpec [0] rfl rfl rfl⟩

/-- Concrete QR options object with no SJIS helper installed. -/
def oPlain : QrOpts :=
  { margin := 4, width := 150, errorCorrectionLevel := none,
    darkColor := "000", lightColor := "fff" }

/-- Claim C7: `mode=sjis` wraps the text as a single kanji-mode segment
and installs the SJIS byte-mapping helper in the options, any other
mode passes the text and options through unchanged, and the options
object built by the /qr handler never carries the helper itself. -/
theorem c7_sjis_kanji_segment (d : String) (o : QrOpts) (m : Option String)
    (spec : QrSpec) (hm : m ≠ some "sjis") :
    prepareQr (some "sjis") d o =
      (QrPayload.segs [{ data := d, mode := "kanji" }],
       { o with toSJISFunc := some SjisHelper.toSJIS }) ∧
    prepareQr m d o = (QrPayload.raw d, o) ∧
    (qrOptsOf spec).toSJISFunc = none := by
  refine ⟨by simp [prepareQr], ?_, rfl⟩
  unfold prepareQr
  rw [if_neg hm]

theorem c7_sjis_kanji_segment_witness :
    (some "8bit" : Option String) ≠ some "sjis" ∧
    (prepareQr (some "sjis") "abc" oPlain =
       (QrPayload.segs [{ data := "abc", mode := "kanji" }],
        { oPlain with toSJISFunc := some SjisHelper.toSJIS }) ∧
     prepareQr (some "8bit") "abc" oPlain = (QrPayload.raw "abc", oPlain) ∧
     (qrOptsOf qSvgSpec).toSJISFunc = none) :=
  ⟨by decide,
    c7_sjis_kanji_segment "abc" oPlain (some "8bit") qSvgSpec (by decide)⟩

/-- Claim C8 (counterexample): `margin=0` parses as the non-negative
integer 0, yet the normalized margin is the default 4, because `0` is
falsy in `parseInt(...) || 4`. -/
theorem c8_margin_zero_counterexample :
    okMargin (normalizeQr Option.some (qMarginQuery "0")) = some 4 ∧
    ¬ okMargin (normalizeQr Option.some (qMarginQuery "0")) = some 0 := by
  decide

/-- Claim C8 (amended): a margin value parsing to a nonzero integer n
normalizes to margin n; the default of 4 is used both when the margin
is unparsable and when it parses to zero. -/
theorem c8_margin_nonzero (decode : String → Option String) (q : QrQuery)
    (s : String) (n : Int) (spec : QrSpec)
    (hm : q.margin = some s) (hp : parseIntJS s = some n) (hn : n ≠ 0)
    (hok : normalizeQr decode q = Except.ok spec) :
    spec.margin = n ∧ qrMargin (some "0") = 4 ∧ qrMargin none = 4 := by
  obtain ⟨d, hd, hspec⟩ := normalizeQr_ok hok
  refine ⟨?_, by decide, by decide⟩
  rw [hspec]
  show qrMargin q.margin = n
  rw [hm]
  unfold qrMargin parseIntOpt
  simp [hp, hn]

/-- The spec that `qMarginQuery "7"` normalizes to. -/
def qMargin7Spec : QrSpec :=
  { format := "png", mode := none, qrData := "hello", margin := 7,
    width := 150, errorCorrectionLevel := none, darkColor := "000",
    lightColor := "fff" }

theorem c8_margin_nonzero_witness :
    (qMarginQuery "7").margin = some "7" ∧
    parseIntJS "7" = some 7 ∧ (7 : Int) ≠ 0 ∧
    normalizeQr Option.some (qMarginQuery "7") = Except.ok qMargin7Spec ∧
    (qMargin7Spec.margin = 7 ∧ qrMargin (some "0") = 4 ∧ qrMargin none = 4) :=
  ⟨rfl, by decide, by decide, rfl,
    c8_margin_nonzero Option.some (qMarginQuery "7") "7" 7 qMargin7Spec rfl
      (by decide) (by decide) rfl⟩

/-- Claim C9: the limiter's skip predicate reads only the query string —
a POST /chart request carrying a privileged key in the body but none in
the query is not skipped: it increments the window count, and is
rejected once the incremented count exceeds the limit. -/
theorem c9_body_key_no_bypass (cfg : AppConfig) (apiKeys : List String)
    (decode : String → Option String)
    (renderQrF : QrSpec → Except String (List Nat))
    (renderChartF : Int → Int → String → String → Except String (List Nat))
    (pdfFromPng : List Nat → List Nat) (req : Req) (count : Nat) (k : String)
    (_hmethod : req.method = Method.post) (hpath : req.path = "/chart")
    (hqk : pget req.query "key" = none)
    (_hbk : pget req.body "key" = some k) (_hmem : apiKeys.contains k = true)
    (henabled : rateLimitEnabled cfg = true) :
    (appStep cfg apiKeys decode renderQrF renderChartF pdfFromPng
      req count).2 = count + 1 ∧
    (count + 1 > limitMaxOf cfg →
      (appStep cfg apiKeys decode renderQrF renderChartF pdfFromPng
        req count).1 = rateLimitResponse) := by
  have hskip := @limiterSkip_of_no_key apiKeys req.query hqk
  unfold appStep
  rw [hpath, if_pos rfl, henabled, if_pos rfl]
  unfold limiterCheck
  rw [hskip]
  simp only [Bool.false_eq_true, if_false]
  by_cases hgt : count + 1 > limitMaxOf cfg
  · rw [if_pos hgt]
    exact ⟨rfl, fun _ => rfl⟩
  · rw [if_neg hgt]
    exact ⟨rfl, fun h => absurd h hgt⟩

/-- Concrete POST /chart request with the privileged key only in the
body. -/
def reqBodyKey : Req :=
  { method := Method.post, path := "/chart",
    query := [], body := [("key", "sek"), ("c", "x")] }

/-- A configuration with a 1-per-minute limit. -/
def cfgLimitOne : AppConfig := { rateLimitPerMin := some "1" }

theorem c9_body_key_no_bypass_witness :
    reqBodyKey.method = Method.post ∧ reqBodyKey.path = "/chart" ∧
    pget reqBodyKey.query "key" = none ∧
    pget reqBodyKey.body "key" = some "sek" ∧
    List.contains ["sek"] "sek" = true ∧
    rateLimitEnabled cfgLimitOne = true ∧
    ((appStep cfgLimitOne ["sek"] Option.some rendQrOk rendChartOk pdfId
       reqBodyKey 5).2 = 6 ∧
     (5 + 1 > limitMaxOf cfgLimitOne →
      (appStep cfgLimitOne ["sek"] Option.some rendQrOk rendChartOk pdfId
        reqBodyKey 5).1 = rateLimitResponse)) :=
  ⟨rfl, rfl, rfl, rfl, by decide, rfl,
    c9_body_key_no_bypass cfgLimitOne ["sek"] Option.some rendQrOk
      rendChartOk pdfId reqBodyKey 5 "sek" rfl rfl rfl rfl (by decide) rfl⟩

/-- Claim C10: outside development mode the shutdown handlers are
installed; on a signal the listener stops accepting new connections,
the process exits no later than the 10-second grace period however long
the in-flight connections take, and any connection finishing within the
grace period finishes no later than the moment the process exits. -/
theorem c10_shutdown_bounded (isDev : Bool) (s : ServerState)
    (finishTimes : List Nat) (hdev : isDev = false) :
    signalHandlersInstalled isDev = true ∧
    (serverClose s).accepting = false ∧
    processExitTime finishTimes ≤ gracePeriodMs ∧
    (∀ d ∈ finishTimes, d ≤ gracePeriodMs →
      d ≤ processExitTime finishTimes) := by
  refine ⟨by rw [hdev]; rfl, rfl, min_le_right _ _, ?_⟩
  intro d hd hle
  exact le_min (mem_le_foldr_max hd) hle

theorem c10_shutdown_bounded_witness :
    (false = false) ∧
    (signalHandlersInstalled false = true ∧
     (serverClose { accepting := true }).accepting = false ∧
     processExitTime [3000, 45000] ≤ gracePeriodMs ∧
     (∀ d ∈ [3000, 45000], d ≤ gracePeriodMs →
       d ≤ processExitTime [3000, 45000])) :=
  ⟨rfl, c10_shutdown_bounded false { accepting := true } [3000, 45000] rfl⟩

end Quickchart
